import Mathlib

/-!
Verification development for the GPU simulation engine of OpenBCSim
(`src/core/algorithm/GpuAlgorithm.cpp`, namespace `bcsim`, class `GpuAlgorithm`).

The C++ class is embedded shallowly: the member variables become the fields of
`GpuState`, each member function becomes a Lean function from state (and
arguments) to state and an `Except` result modelling C++ exceptions, and device
buffers become Lean lists of their element values.  `float` values are embedded
as exact rationals and `std::complex<float>` as `Cplx` (a pair of rationals);
the claims settled here concern control flow, buffer layout and zero
propagation, none of which depend on rounding.

Code of the repository that the claims need but that is not under `src/`
(the CUDA kernels, cuFFT, `compute_num_rf_samples`, the b-spline helpers, the
device limits and the `MAX_*` constants) is modelled from the spec as explicit
parameters collected in an `Env` record; each such parameter is documented at
its declaration.
-/

namespace BCSim

/-- Shallow embedding of `std::complex<float>`: exact complex rationals. -/
structure Cplx where
  re : ℚ
  im : ℚ
deriving DecidableEq

instance : Zero Cplx := ⟨⟨0, 0⟩⟩

instance : Add Cplx := ⟨fun a b => ⟨a.re + b.re, a.im + b.im⟩⟩

instance : Mul Cplx := ⟨fun a b => ⟨a.re * b.re - a.im * b.im, a.re * b.im + a.im * b.re⟩⟩

theorem Cplx.zero_def : (0 : Cplx) = ⟨0, 0⟩ := rfl

theorem Cplx.mul_def (a b : Cplx) :
    a * b = ⟨a.re * b.re - a.im * b.im, a.re * b.im + a.im * b.re⟩ := rfl

/-- Multiplying any `Cplx` by zero on the right gives zero. -/
theorem Cplx.mul_zero' (a : Cplx) : a * (0 : Cplx) = 0 := by
  show Cplx.mk _ _ = Cplx.mk _ _
  simp [Cplx.mul_def, Cplx.zero_def]

/-- Multiplying any `Cplx` by zero on the left gives zero. -/
theorem Cplx.zero_mul' (a : Cplx) : (0 : Cplx) * a = 0 := by
  show Cplx.mk _ _ = Cplx.mk _ _
  simp [Cplx.mul_def, Cplx.zero_def]

/-- Scaling a `Cplx` by a real factor (`ScaleSignalKernel` semantics). -/
def Cplx.scale (r : ℚ) (a : Cplx) : Cplx := ⟨r * a.re, r * a.im⟩

/-- Sum of a list of complex samples. -/
def sumC (l : List Cplx) : Cplx := l.foldr (· + ·) 0

theorem sumC_nil : sumC [] = 0 := rfl

theorem sumC_cons (x : Cplx) (l : List Cplx) : sumC (x :: l) = x + sumC l := rfl

theorem sumC_eq_zero {l : List Cplx} (h : ∀ x ∈ l, x = 0) : sumC l = 0 := by
  induction l with
  | nil => rfl
  | cons x t ih =>
    have hx : x = 0 := h x (List.mem_cons_self x t)
    have ht : sumC t = 0 := ih fun y hy => h y (List.mem_cons_of_mem x hy)
    show x + sumC t = 0
    rw [hx, ht]
    show Cplx.mk _ _ = Cplx.mk _ _
    simp [Cplx.zero_def]

/-- Modelled from the spec: the cuFFT `cufftExecC2C` transforms are discrete
Fourier transforms; the (transcendental) twiddle factors are abstracted as a
parameter `w`, with `dftWith w xs` at output index `k` summing `w k n * xs[n]`
over all input indices `n`.  Length is preserved, matching the in-place
transform of a buffer of `num_time_samples` elements. -/
def dftWith (w : ℕ → ℕ → Cplx) (xs : List Cplx) : List Cplx :=
  (List.range xs.length).map fun k =>
    sumC ((List.range xs.length).map fun n => w k n * xs.getD n 0)

/-- Position in three dimensions (`bcsim::vector3`). -/
structure Vec3 where
  x : ℚ
  y : ℚ
  z : ℚ
deriving DecidableEq

instance : Inhabited Vec3 := ⟨⟨0, 0, 0⟩⟩

/-- One scan direction (`bcsim::Scanline`): origin, orthonormal direction
triad and a timestamp. -/
structure Scanline where
  origin : Vec3
  direction : Vec3
  lateral_dir : Vec3
  elevational_dir : Vec3
  timestamp : ℚ
deriving DecidableEq

instance : Inhabited Scanline := ⟨⟨default, default, default, default, 0⟩⟩

/-- Embedding of `bcsim::ScanSequence`: ordered scanlines plus the common line length. -/
structure ScanSequence where
  lines : List Scanline
  line_length : ℚ
deriving DecidableEq

/-- Embedding of `bcsim::ExcitationSignal`. -/
structure ExcitationSignal where
  samples : List ℚ
  sampling_frequency : ℚ
  demod_freq : ℚ
  center_index : ℕ
deriving DecidableEq

/-- A fixed point scatterer (`bcsim::PointScatterer`). -/
structure PointScatterer where
  pos : Vec3
  amplitude : ℚ
deriving DecidableEq

/-- Embedding of `bcsim::FixedScatterers`. -/
structure FixedScatterers where
  scatterers : List PointScatterer
deriving DecidableEq

/-- Embedding of `bcsim::SplineScatterers`: per-scatterer control-point sequences, a shared
knot vector and degree, and per-scatterer amplitudes.  `num_scatterers()` is
the number of control-point sequences and `get_num_control_points()` the
length of the first sequence (modelled from the spec; the class body is not
under `src/`). -/
structure SplineScatterers where
  control_points : List (List Vec3)
  amplitudes : List ℚ
  knot_vector : List ℚ
  spline_degree : ℕ
deriving DecidableEq

def SplineScatterers.num_scatterers (sc : SplineScatterers) : ℕ :=
  sc.control_points.length

def SplineScatterers.get_num_control_points (sc : SplineScatterers) : ℕ :=
  (sc.control_points.headD []).length

/-- Modelled from the spec: the `LUTBeamProfile` collaborator (not under
`src/`): sample counts, axis ranges (pairs `(first, last)`) and the host-side
profile function `sampleProfile(r, l, e)` sampling at a radial, lateral and
elevational coordinate. -/
structure LUTBeamProfile where
  num_samples_rad : ℕ
  num_samples_lat : ℕ
  num_samples_ele : ℕ
  r_range : ℚ × ℚ
  l_range : ℚ × ℚ
  e_range : ℚ × ℚ
  sampleProfile : ℚ → ℚ → ℚ → ℚ

/-- The `m_cur_beam_profile_type` tag. -/
inductive BeamProfileType where
  | NOT_CONFIGURED
  | ANALYTICAL
  | LOOKUP
deriving DecidableEq

/-- The `std::runtime_error` / `std::logic_error` values thrown by
`GpuAlgorithm`, one constructor per throw site. -/
inductive SimError where
  | cannotChangeDevice
  | illegalDeviceNumber
  | tooManyStreams
  | nonPositiveStreams
  | invalidThreadsPerBlock
  | noiseNotImplemented
  | invalidValue
  | noScanlines
  | noBeamProfile
  | gridLimitFixed
  | gridLimitSpline
  | tooManyRfSamples
  | noScatterers
  | maxSplineDegreeExceeded
  | splineSanityCheck
  | constantMemCopy
deriving DecidableEq

instance {ε α : Type _} [DecidableEq ε] [DecidableEq α] : DecidableEq (Except ε α) :=
  fun a b =>
    match a, b with
    | .error e1, .error e2 =>
      if h : e1 = e2 then .isTrue (congrArg Except.error h)
      else .isFalse fun hc => h (Except.error.inj hc)
    | .error _, .ok _ => .isFalse fun hc => Except.noConfusion hc
    | .ok _, .error _ => .isFalse fun hc => Except.noConfusion hc
    | .ok a1, .ok a2 =>
      if h : a1 = a2 then .isTrue (congrArg Except.ok h)
      else .isFalse fun hc => h (Except.ok.inj hc)

/-- The lookup-table extent block shared by both kernel parameter structs. -/
structure LutExtents where
  r_min : ℚ
  r_max : ℚ
  l_min : ℚ
  l_max : ℚ
  e_min : ℚ
  e_max : ℚ
deriving DecidableEq

/-- The `FixedAlgKernelParams` struct filled in `fixed_projection_kernel`
together with the three compile-time specialization flags and the launch
geometry chosen there. -/
structure FixedParams where
  point_xs : List ℚ
  point_ys : List ℚ
  point_zs : List ℚ
  point_as : List ℚ
  rad_dir : Vec3
  lat_dir : Vec3
  ele_dir : Vec3
  origin : Vec3
  fs_hertz : ℚ
  num_time_samples : ℕ
  sigma_lateral : ℚ
  sigma_elevational : ℚ
  sound_speed : ℚ
  demod_freq : ℚ
  num_scatterers : ℕ
  lut_tex : List ℚ
  lut : LutExtents
  use_arc_projection : Bool
  use_phase_delay : Bool
  use_lut : Bool
  num_blocks : ℕ
  threads_per_block : ℕ

/-- The `SplineAlgKernelParams` struct filled in `spline_projection_kernel`
together with the scanline timestamp, knot vector and degree that drive the
host-side basis evaluation, the specialization flags and the launch
geometry. -/
structure SplineParams where
  control_xs : List ℚ
  control_ys : List ℚ
  control_zs : List ℚ
  control_as : List ℚ
  rad_dir : Vec3
  lat_dir : Vec3
  ele_dir : Vec3
  origin : Vec3
  fs_hertz : ℚ
  num_time_samples : ℕ
  sigma_lateral : ℚ
  sigma_elevational : ℚ
  sound_speed : ℚ
  num_splines : ℕ
  eval_basis_offset_elements : ℕ
  demod_freq : ℚ
  lut_tex : List ℚ
  lut : LutExtents
  timestamp : ℚ
  knots : List ℚ
  spline_degree : ℕ
  num_cs : ℕ
  use_arc_projection : Bool
  use_phase_delay : Bool
  use_lut : Bool
  num_blocks : ℕ
  threads_per_block : ℕ

/-- Modelled from the spec: the environment of `GpuAlgorithm.cpp` that is not
under `src/` — the CUDA device count and capability limits, the constants of
`common_definitions.h`, `compute_num_rf_samples` from `common_utils.hpp`
(a function of sound speed, line length and sampling frequency), the discrete
Hilbert mask from `discrete_hilbert_mask.hpp`, the twiddle factors of the
cuFFT transforms, the demodulation phase factors
(`exp` at the normalized demodulation frequency times the sample index), and
the two scatterer-projection kernels, which accumulate contributions into the
time-projection buffer (the spline kernel can fail when the b-spline sanity
check or the constant-memory upload fails). -/
structure Env where
  device_count : ℕ
  max_grid_size_x : ℕ
  max_num_cuda_streams : ℤ
  max_spline_degree : ℕ
  compute_num_rf_samples : ℚ → ℚ → ℚ → ℕ
  fwd_w : ℕ → ℕ → Cplx
  inv_w : ℕ → ℕ → Cplx
  hilbert_mask : ℕ → List Cplx
  demod_phase : ℚ → ℕ → Cplx
  fixed_projection : FixedParams → List Cplx → List Cplx
  spline_projection : SplineParams → List Cplx → Except SimError (List Cplx)

/-- The member variables of `bcsim::GpuAlgorithm` (and of its `BaseAlgorithm`
base class that this translation unit reads).  Device and pinned host buffers
are embedded as lists of their element values; RAII pointers that may be null
become `Option`.  `m_stream_wrappers` is kept as its length
(`num_stream_wrappers`), the only aspect the code observes. -/
structure GpuState where
  param_cuda_device_no : ℤ
  can_change_cuda_device : Bool
  param_num_cuda_streams : ℕ
  num_time_samples : ℕ
  num_beams_allocated : ℤ
  param_threads_per_block : ℕ
  store_kernel_details : Bool
  num_fixed_scatterers : ℕ
  num_spline_scatterers : ℕ
  num_stream_wrappers : ℕ
  device_time_proj : List (List Cplx)
  host_rf_lines : List (List Cplx)
  device_excitation_fft : Option (List Cplx)
  excitation : ExcitationSignal
  scan_seq : ScanSequence
  cur_beam_profile_type : BeamProfileType
  analytical_sigma_lat : ℚ
  analytical_sigma_ele : ℚ
  device_beam_profile : List ℚ
  lut_r_min : ℚ
  lut_r_max : ℚ
  lut_l_min : ℚ
  lut_l_max : ℚ
  lut_e_min : ℚ
  lut_e_max : ℚ
  spline_degree : ℕ
  num_cs : ℕ
  device_control_xs : Option (List ℚ)
  device_control_ys : Option (List ℚ)
  device_control_zs : Option (List ℚ)
  device_control_as : Option (List ℚ)
  common_knots : List ℚ
  device_point_xs : Option (List ℚ)
  device_point_ys : Option (List ℚ)
  device_point_zs : Option (List ℚ)
  device_point_as : Option (List ℚ)
  debug_data : List String
  cur_device_max_grid_x : ℕ
  param_sound_speed : ℚ
  m_radial_decimation : ℕ
  param_verbose : Bool
  param_use_arc_projection : Bool
  enable_phase_delay : Bool
deriving DecidableEq

/-- The `GpuAlgorithm` constructor: parameter defaults from the initializer
list, the saved device capability, and the `16×16×16` zero-filled dummy
lookup-table volume from `create_dummy_lut_profile`.  The `BaseAlgorithm`
member defaults (sound speed, decimation, flags) are not under `src/` and are
modelled from the spec as neutral values; no claim depends on them. -/
def initState (env : Env) : GpuState where
  param_cuda_device_no := 0
  can_change_cuda_device := true
  param_num_cuda_streams := 2
  num_time_samples := 8192
  num_beams_allocated := -1
  param_threads_per_block := 128
  store_kernel_details := false
  num_fixed_scatterers := 0
  num_spline_scatterers := 0
  num_stream_wrappers := 0
  device_time_proj := []
  host_rf_lines := []
  device_excitation_fft := none
  excitation := ⟨[], 0, 0, 0⟩
  scan_seq := ⟨[], 0⟩
  cur_beam_profile_type := BeamProfileType.NOT_CONFIGURED
  analytical_sigma_lat := 0
  analytical_sigma_ele := 0
  device_beam_profile := List.replicate (16 * 16 * 16) 0
  lut_r_min := 0
  lut_r_max := 0
  lut_l_min := 0
  lut_l_max := 0
  lut_e_min := 0
  lut_e_max := 0
  spline_degree := 0
  num_cs := 0
  device_control_xs := none
  device_control_ys := none
  device_control_zs := none
  device_control_as := none
  common_knots := []
  device_point_xs := none
  device_point_ys := none
  device_point_zs := none
  device_point_as := none
  debug_data := []
  cur_device_max_grid_x := env.max_grid_size_x
  param_sound_speed := 1540
  m_radial_decimation := 1
  param_verbose := false
  param_use_arc_projection := false
  enable_phase_delay := false

/-- Helper `round_up_div` from `cuda_helpers.h` (not under `src/`; modelled from the
spec: block count = ceil(scatterer count / threads per block)). -/
def round_up_div (x y : ℕ) : ℕ := (x + y - 1) / y

/-- The `set_parameter` keys this translation unit handles, with their values
already parsed (`std::stoi` on the raw strings), plus the `BaseAlgorithm`
fallback keys this file's code reads (`sound_speed`, `radial_decimation`,
`verbose`, `use_arc_projection`, `phase_delay` — handled outside `src/`,
modelled from the spec as plain parameter stores). -/
inductive ParamCmd where
  | gpuDevice (n : ℤ)
  | cudaStreams (n : ℤ)
  | threadsPerBlock (n : ℤ)
  | noiseAmplitude
  | storeKernelDetails (v : String)
  | soundSpeed (c : ℚ)
  | radialDecimation (n : ℕ)
  | verbose (b : Bool)
  | useArcProjection (b : Bool)
  | phaseDelay (b : Bool)

/-- Embedding of `GpuAlgorithm::set_parameter`.  A changed device re-queries and caches the
device capability (`save_cuda_device_properties`). -/
def set_parameter (env : Env) (s : GpuState) (cmd : ParamCmd) :
    GpuState × Except SimError Unit :=
  match cmd with
  | .gpuDevice n =>
    if s.can_change_cuda_device = false then (s, .error .cannotChangeDevice)
    else if n < 0 ∨ n ≥ (env.device_count : ℤ) then (s, .error .illegalDeviceNumber)
    else ({ s with param_cuda_device_no := n,
                   cur_device_max_grid_x := env.max_grid_size_x }, .ok ())
  | .cudaStreams n =>
    if n > env.max_num_cuda_streams then (s, .error .tooManyStreams)
    else if n ≤ 0 then (s, .error .nonPositiveStreams)
    else ({ s with param_num_cuda_streams := n.toNat }, .ok ())
  | .threadsPerBlock n =>
    if n ≤ 0 then (s, .error .invalidThreadsPerBlock)
    else ({ s with param_threads_per_block := n.toNat }, .ok ())
  | .noiseAmplitude => (s, .error .noiseNotImplemented)
  | .storeKernelDetails v =>
    if v = "on" ∨ v = "true" then ({ s with store_kernel_details := true }, .ok ())
    else if v = "off" ∨ v = "false" then ({ s with store_kernel_details := false }, .ok ())
    else (s, .error .invalidValue)
  | .soundSpeed c => ({ s with param_sound_speed := c }, .ok ())
  | .radialDecimation n => ({ s with m_radial_decimation := n }, .ok ())
  | .verbose b => ({ s with param_verbose := b }, .ok ())
  | .useArcProjection b => ({ s with param_use_arc_projection := b }, .ok ())
  | .phaseDelay b => ({ s with enable_phase_delay := b }, .ok ())

/-- Embedding of `GpuAlgorithm::create_cuda_stream_wrappers`: clears and recreates the
stream pool, then locks the device-change latch. -/
def create_cuda_stream_wrappers (s : GpuState) (num_streams : ℕ) : GpuState :=
  { s with num_stream_wrappers := num_streams, can_change_cuda_device := false }

/-- Embedding of `GpuAlgorithm::set_excitation`: locks the device latch, stores the
excitation, builds the zero-padded complex buffer of `num_time_samples`
entries with the excitation samples as real parts, forward-transforms it,
scales by `1/num_time_samples` (`ScaleSignalKernel`) and multiplies
elementwise by the discrete Hilbert mask (`MultiplyFftKernel`).  The kernels
write all `num_time_samples` slots, so out-of-range reads use default `0`. -/
def set_excitation (env : Env) (s : GpuState) (e : ExcitationSignal) : GpuState :=
  let s := { s with can_change_cuda_device := false, excitation := e }
  let n := s.num_time_samples
  let temp : List Cplx :=
    (List.range n).map fun i => if i < e.samples.length then ⟨e.samples.getD i 0, 0⟩ else 0
  let fft := dftWith env.fwd_w temp
  let scaled := fft.map (Cplx.scale (1 / (n : ℚ)))
  let mask := env.hilbert_mask n
  let excitation_fft := (List.range n).map fun i => scaled.getD i 0 * mask.getD i 0
  { s with device_excitation_fft := some excitation_fft }

/-- Embedding of `GpuAlgorithm::set_scan_sequence`: locks the device latch, stores the new
sequence, fails if the required number of RF samples exceeds the fixed
`num_time_samples` capacity, then reallocates the per-stream device
projection buffers and the per-line pinned host buffers only when the new
line count exceeds the previously allocated count (fresh allocations are
uninitialized memory; their contents are modelled as zeros — no claim reads
them before they are overwritten). -/
def set_scan_sequence (env : Env) (s : GpuState) (seq : ScanSequence) :
    GpuState × Except SimError Unit :=
  let s := { s with can_change_cuda_device := false, scan_seq := seq }
  let num_rf_samples :=
    env.compute_num_rf_samples s.param_sound_speed seq.line_length s.excitation.sampling_frequency
  if num_rf_samples > s.num_time_samples then (s, .error .tooManyRfSamples)
  else
    let num_beams := seq.lines.length
    if s.num_beams_allocated < (num_beams : ℤ) then
      ({ s with
          device_time_proj :=
            List.replicate s.param_num_cuda_streams (List.replicate s.num_time_samples (0 : Cplx)),
          host_rf_lines :=
            List.replicate num_beams (List.replicate s.num_time_samples (0 : Cplx)),
          num_beams_allocated := (num_beams : ℤ) }, .ok ())
    else (s, .ok ())

/-- Embedding of `GpuAlgorithm::set_analytical_profile` (the dynamic cast always succeeds
in this typed embedding): stores the two Gaussian sigmas and tags the profile
type. -/
def set_analytical_profile (s : GpuState) (sigma_lat sigma_ele : ℚ) : GpuState :=
  { s with cur_beam_profile_type := BeamProfileType.ANALYTICAL,
           analytical_sigma_lat := sigma_lat,
           analytical_sigma_ele := sigma_ele }

/-- The flattened sample volume built by the triple loop of
`GpuAlgorithm::set_lookup_profile`: `zi` over the radial count outermost,
`yi` over the lateral count, `xi` over the elevational count innermost, with
the coordinates computed exactly as in the source (`x` from the lateral range
and lateral count with `xi`; `y` from the elevational range and elevational
count with `yi`; `z` from the radial range and radial count with `zi`). -/
def lut_samples (p : LUTBeamProfile) : List ℚ :=
  ((List.range p.num_samples_rad).map fun (zi : ℕ) =>
    (((List.range p.num_samples_lat).map fun (yi : ℕ) =>
      ((List.range p.num_samples_ele).map fun (xi : ℕ) =>
        let x := p.l_range.1 + (xi : ℚ) * (p.l_range.2 - p.l_range.1) / ((p.num_samples_lat : ℚ) - 1)
        let y := p.e_range.1 + (yi : ℚ) * (p.e_range.2 - p.e_range.1) / ((p.num_samples_ele : ℚ) - 1)
        let z := p.r_range.1 + (zi : ℚ) * (p.r_range.2 - p.r_range.1) / ((p.num_samples_rad : ℚ) - 1)
        p.sampleProfile z x y))).flatten).flatten

/-- Embedding of `GpuAlgorithm::set_lookup_profile`: evaluates the host-side profile on
the loop of `lut_samples`, uploads it as the device profile volume and stores
the axis extents. -/
def set_lookup_profile (s : GpuState) (p : LUTBeamProfile) : GpuState :=
  { s with cur_beam_profile_type := BeamProfileType.LOOKUP,
           device_beam_profile := lut_samples p,
           lut_r_min := p.r_range.1, lut_r_max := p.r_range.2,
           lut_l_min := p.l_range.1, lut_l_max := p.l_range.2,
           lut_e_min := p.e_range.1, lut_e_max := p.e_range.2 }

/-- Embedding of `GpuAlgorithm::copy_scatterers_to_device(FixedScatterers)`: locks the
device latch and uploads the four structure-of-arrays buffers (the byte-size
reuse check picks between reusing and reallocating the same-sized device
arrays; either way the uploaded contents below are what the buffers hold). -/
def copy_fixed_scatterers (s : GpuState) (sc : FixedScatterers) : GpuState :=
  let s := { s with can_change_cuda_device := false }
  { s with
      device_point_xs := some (sc.scatterers.map fun p => p.pos.x),
      device_point_ys := some (sc.scatterers.map fun p => p.pos.y),
      device_point_zs := some (sc.scatterers.map fun p => p.pos.z),
      device_point_as := some (sc.scatterers.map fun p => p.amplitude),
      num_fixed_scatterers := sc.scatterers.length }

/-- The inner loop of the spline-scatterer host reorganization: for one
scatterer `spline_no`, writes its `i`-th control-point component at offset
`spline_no + i * num_splines` for every `i < num_cs`. -/
def spline_inner_loop (cps : ℕ → ℕ → ℚ) (num_splines spline_no num_cs : ℕ)
    (arr : List ℚ) : List ℚ :=
  (List.range num_cs).foldl (fun a i => a.set (spline_no + i * num_splines) (cps spline_no i)) arr

/-- The full host reorganization loop of
`copy_scatterers_to_device(SplineScatterers)` for one coordinate: outer loop
over scatterers, inner loop over control points, into a host vector of
`num_splines * num_cs` entries. -/
def spline_host_array (cps : ℕ → ℕ → ℚ) (num_splines num_cs : ℕ) : List ℚ :=
  (List.range num_splines).foldl
    (fun a spline_no => spline_inner_loop cps num_splines spline_no num_cs a)
    (List.replicate (num_splines * num_cs) 0)

/-- The amplitude part of the same outer loop: `host_control_as[spline_no] :=
amplitudes[spline_no]`. -/
def spline_amp_array (amps : ℕ → ℚ) (num_splines : ℕ) : List ℚ :=
  (List.range num_splines).foldl (fun a spline_no => a.set spline_no (amps spline_no))
    (List.replicate num_splines 0)

/-- Embedding of `GpuAlgorithm::copy_scatterers_to_device(SplineScatterers)`: locks the
latch and stores the scatterer count, fails when the count is zero, stores
the degree and control-point count, fails when the degree exceeds
`MAX_SPLINE_DEGREE`, and only then allocates the device buffers and uploads
the transposed control-point arrays, the amplitudes and the knot vector. -/
def copy_spline_scatterers (env : Env) (s : GpuState) (sc : SplineScatterers) :
    GpuState × Except SimError Unit :=
  let s := { s with can_change_cuda_device := false,
                    num_spline_scatterers := sc.num_scatterers }
  if sc.num_scatterers = 0 then (s, .error .noScatterers)
  else
    let s := { s with spline_degree := sc.spline_degree,
                      num_cs := sc.get_num_control_points }
    if sc.spline_degree > env.max_spline_degree then (s, .error .maxSplineDegreeExceeded)
    else
      let n := sc.num_scatterers
      let m := sc.get_num_control_points
      ({ s with
          device_control_xs :=
            some (spline_host_array (fun a b => ((sc.control_points.getD a []).getD b default).x) n m),
          device_control_ys :=
            some (spline_host_array (fun a b => ((sc.control_points.getD a []).getD b default).y) n m),
          device_control_zs :=
            some (spline_host_array (fun a b => ((sc.control_points.getD a []).getD b default).z) n m),
          device_control_as := some (spline_amp_array (fun a => sc.amplitudes.getD a 0) n),
          common_knots := sc.knot_vector }, .ok ())

/-- Number of iterations of `for (i = 0; i < num_samples; i += decimation)`:
the output sample count of one assembled RF line. -/
def decim_count (num_samples decimation : ℕ) : ℕ :=
  (num_samples + decimation - 1) / decimation

/-- The host-buffer indices read while assembling one output line: the `k`-th
kept sample is read at `k * decimation + delay_compensation`, for every `k`
with `k * decimation < num_samples`. -/
def readIdxs (num_samples decimation delay_compensation : ℕ) : List ℕ :=
  (List.range (decim_count num_samples decimation)).map
    fun k => k * decimation + delay_compensation

/-- Output assembly for one line (the inner loop of `simulate_lines` step 6):
walk the host samples starting at the excitation center index and keep every
`decimation`-th sample while `i < num_samples`. -/
def assemble_line (host : List Cplx) (num_samples decimation delay_compensation : ℕ) :
    List Cplx :=
  (readIdxs num_samples decimation delay_compensation).map fun idx => host.getD idx 0

/-- The fields of `GpuState` that the per-call computation of
`simulate_lines` reads; everything `simulate_lines` itself mutates
(the latch, the stream pool, the debug log and the output buffers) is
excluded, which is what makes repeated calls reproducible. -/
structure SimView where
  num_time_samples : ℕ
  param_num_cuda_streams : ℕ
  param_threads_per_block : ℕ
  cur_device_max_grid_x : ℕ
  num_fixed_scatterers : ℕ
  num_spline_scatterers : ℕ
  scan_seq : ScanSequence
  excitation : ExcitationSignal
  device_excitation_fft : Option (List Cplx)
  cur_beam_profile_type : BeamProfileType
  analytical_sigma_lat : ℚ
  analytical_sigma_ele : ℚ
  device_beam_profile : List ℚ
  lut_r_min : ℚ
  lut_r_max : ℚ
  lut_l_min : ℚ
  lut_l_max : ℚ
  lut_e_min : ℚ
  lut_e_max : ℚ
  spline_degree : ℕ
  num_cs : ℕ
  device_control_xs : Option (List ℚ)
  device_control_ys : Option (List ℚ)
  device_control_zs : Option (List ℚ)
  device_control_as : Option (List ℚ)
  common_knots : List ℚ
  device_point_xs : Option (List ℚ)
  device_point_ys : Option (List ℚ)
  device_point_zs : Option (List ℚ)
  device_point_as : Option (List ℚ)
  param_sound_speed : ℚ
  m_radial_decimation : ℕ
  param_use_arc_projection : Bool
  enable_phase_delay : Bool
deriving DecidableEq

/-- Projection of a `GpuState` onto the fields `simulate_lines` reads. -/
def simView (s : GpuState) : SimView where
  num_time_samples := s.num_time_samples
  param_num_cuda_streams := s.param_num_cuda_streams
  param_threads_per_block := s.param_threads_per_block
  cur_device_max_grid_x := s.cur_device_max_grid_x
  num_fixed_scatterers := s.num_fixed_scatterers
  num_spline_scatterers := s.num_spline_scatterers
  scan_seq := s.scan_seq
  excitation := s.excitation
  device_excitation_fft := s.device_excitation_fft
  cur_beam_profile_type := s.cur_beam_profile_type
  analytical_sigma_lat := s.analytical_sigma_lat
  analytical_sigma_ele := s.analytical_sigma_ele
  device_beam_profile := s.device_beam_profile
  lut_r_min := s.lut_r_min
  lut_r_max := s.lut_r_max
  lut_l_min := s.lut_l_min
  lut_l_max := s.lut_l_max
  lut_e_min := s.lut_e_min
  lut_e_max := s.lut_e_max
  spline_degree := s.spline_degree
  num_cs := s.num_cs
  device_control_xs := s.device_control_xs
  device_control_ys := s.device_control_ys
  device_control_zs := s.device_control_zs
  device_control_as := s.device_control_as
  common_knots := s.common_knots
  device_point_xs := s.device_point_xs
  device_point_ys := s.device_point_ys
  device_point_zs := s.device_point_zs
  device_point_as := s.device_point_as
  param_sound_speed := s.param_sound_speed
  m_radial_decimation := s.m_radial_decimation
  param_use_arc_projection := s.param_use_arc_projection
  enable_phase_delay := s.enable_phase_delay

/-- Whether the lookup-table specialization flag is on (`use_lut` in both
projection-kernel dispatchers).  The `NOT_CONFIGURED` case is unreachable
there because `simulate_lines` has already validated the profile. -/
def use_lut_flag : BeamProfileType → Bool
  | BeamProfileType.LOOKUP => true
  | _ => false

/-- The parameter struct built by `fixed_projection_kernel`. -/
def mkFixedParams (v : SimView) (scanline : Scanline) (num_blocks : ℕ) : FixedParams where
  point_xs := v.device_point_xs.getD []
  point_ys := v.device_point_ys.getD []
  point_zs := v.device_point_zs.getD []
  point_as := v.device_point_as.getD []
  rad_dir := scanline.direction
  lat_dir := scanline.lateral_dir
  ele_dir := scanline.elevational_dir
  origin := scanline.origin
  fs_hertz := v.excitation.sampling_frequency
  num_time_samples := v.num_time_samples
  sigma_lateral := v.analytical_sigma_lat
  sigma_elevational := v.analytical_sigma_ele
  sound_speed := v.param_sound_speed
  demod_freq := v.excitation.demod_freq
  num_scatterers := v.num_fixed_scatterers
  lut_tex := v.device_beam_profile
  lut := ⟨v.lut_r_min, v.lut_r_max, v.lut_l_min, v.lut_l_max, v.lut_e_min, v.lut_e_max⟩
  use_arc_projection := v.param_use_arc_projection
  use_phase_delay := v.enable_phase_delay
  use_lut := use_lut_flag v.cur_beam_profile_type
  num_blocks := num_blocks
  threads_per_block := v.param_threads_per_block

/-- The parameter struct built by `spline_projection_kernel`, including the
stream-specific constant-memory offset `(degree+1) * stream_no`. -/
def mkSplineParams (v : SimView) (scanline : Scanline) (num_blocks stream_no : ℕ) :
    SplineParams where
  control_xs := v.device_control_xs.getD []
  control_ys := v.device_control_ys.getD []
  control_zs := v.device_control_zs.getD []
  control_as := v.device_control_as.getD []
  rad_dir := scanline.direction
  lat_dir := scanline.lateral_dir
  ele_dir := scanline.elevational_dir
  origin := scanline.origin
  fs_hertz := v.excitation.sampling_frequency
  num_time_samples := v.num_time_samples
  sigma_lateral := v.analytical_sigma_lat
  sigma_elevational := v.analytical_sigma_ele
  sound_speed := v.param_sound_speed
  num_splines := v.num_spline_scatterers
  eval_basis_offset_elements := (v.spline_degree + 1) * stream_no
  demod_freq := v.excitation.demod_freq
  lut_tex := v.device_beam_profile
  lut := ⟨v.lut_r_min, v.lut_r_max, v.lut_l_min, v.lut_l_max, v.lut_e_min, v.lut_e_max⟩
  timestamp := scanline.timestamp
  knots := v.common_knots
  spline_degree := v.spline_degree
  num_cs := v.num_cs
  use_arc_projection := v.param_use_arc_projection
  use_phase_delay := v.enable_phase_delay
  use_lut := use_lut_flag v.cur_beam_profile_type
  num_blocks := num_blocks
  threads_per_block := v.param_threads_per_block

/-- The FFT/demodulation tail of the per-scanline pipeline: forward FFT in
place, elementwise multiply by the stored excitation spectrum
(`launch_MultiplyFftKernel`, all `num_time_samples` slots), inverse FFT in
place, then demodulation (`launch_DemodulateKernel`): each sample `i` is
multiplied by the phase factor at the normalized demodulation frequency
`demod_freq / sampling_frequency`. -/
def fftStages (env : Env) (v : SimView) (buf2 : List Cplx) : List Cplx :=
  let n := v.num_time_samples
  let buf3 := dftWith env.fwd_w buf2
  let buf4 := (List.range n).map fun i =>
    buf3.getD i 0 * (v.device_excitation_fft.getD []).getD i 0
  let buf5 := dftWith env.inv_w buf4
  let norm_f_demod := v.excitation.demod_freq / v.excitation.sampling_frequency
  (List.range n).map fun i => env.demod_phase norm_f_demod i * buf5.getD i 0

/-- The per-scanline pipeline of `simulate_lines` step 4: memset the stream's
time-projection buffer to zero, run the fixed projection kernel if any fixed
scatterers exist, run the spline projection kernel if any spline scatterers
exist, then the FFT/multiply/FFT/demodulate tail; the result is what the
`cudaMemcpyAsync` copies to the line's pinned host buffer. -/
def computeLine (env : Env) (v : SimView) (scanline : Scanline) (stream_no : ℕ) :
    Except SimError (List Cplx) :=
  let buf0 : List Cplx := List.replicate v.num_time_samples 0
  let buf1 :=
    if v.num_fixed_scatterers > 0 then
      env.fixed_projection
        (mkFixedParams v scanline (round_up_div v.num_fixed_scatterers v.param_threads_per_block))
        buf0
    else buf0
  match
    (if v.num_spline_scatterers > 0 then
      env.spline_projection
        (mkSplineParams v scanline
          (round_up_div v.num_spline_scatterers v.param_threads_per_block) stream_no)
        buf1
    else .ok buf1) with
  | .error e => .error e
  | .ok buf2 => .ok (fftStages env v buf2)

/-- The validation and computation of one `simulate_lines` call as a function
of the fields it reads: the early error checks in source order, then the
per-line pipeline for each scanline (stream = line index mod stream count),
then the assembled decimated output.  Returns the per-line host buffers
together with the assembled output lines. -/
def simCore (env : Env) (v : SimView) :
    Except SimError (List (List Cplx) × List (List Cplx)) :=
  let num_lines := v.scan_seq.lines.length
  if num_lines < 1 then .error .noScanlines
  else if v.cur_beam_profile_type = BeamProfileType.NOT_CONFIGURED then .error .noBeamProfile
  else if round_up_div v.num_fixed_scatterers v.param_threads_per_block >
      v.cur_device_max_grid_x then .error .gridLimitFixed
  else if round_up_div v.num_spline_scatterers v.param_threads_per_block >
      v.cur_device_max_grid_x then .error .gridLimitSpline
  else
    let delay_compensation_num_samples := v.excitation.center_index
    let num_return_samples :=
      env.compute_num_rf_samples v.param_sound_speed v.scan_seq.line_length
        v.excitation.sampling_frequency
    match
      (List.range num_lines).mapM fun beam_no =>
        computeLine env v (v.scan_seq.lines.getD beam_no default)
          (beam_no % v.param_num_cuda_streams) with
    | .error e => .error e
    | .ok bufs =>
      .ok (bufs,
        (List.range num_lines).map fun line_no =>
          assemble_line (bufs.getD line_no []) num_return_samples v.m_radial_decimation
            delay_compensation_num_samples)

/-- The state mutations at the top of `simulate_lines` (lines 149–157):
lock the device latch, lazily create the stream pool, and clear the
diagnostic log when enabled. -/
def preprocess (s : GpuState) : GpuState :=
  let s1 := { s with can_change_cuda_device := false }
  let s2 :=
    if s1.num_stream_wrappers = 0 then create_cuda_stream_wrappers s1 s1.param_num_cuda_streams
    else s1
  if s2.store_kernel_details then { s2 with debug_data := [] } else s2

/-- Writing each computed line buffer into the corresponding pinned host
buffer (the `cudaMemcpyAsync` of each loop iteration). -/
def writeLines (n : ℕ) (bufs : List (List Cplx)) (hosts : List (List Cplx)) :
    List (List Cplx) :=
  (List.range n).foldl (fun h j => h.set j (bufs.getD j [])) hosts

/-- The final contents of the per-stream device projection buffers: each line's
pipeline leaves its result in the buffer of stream `line mod streams`. -/
def writeProj (n streams : ℕ) (bufs : List (List Cplx)) (proj : List (List Cplx)) :
    List (List Cplx) :=
  (List.range n).foldl (fun d j => d.set (j % streams) (bufs.getD j [])) proj

/-- Embedding of `GpuAlgorithm::simulate_lines`: the entry mutations of `preprocess`, the
validations and per-line pipeline of `simCore`, then the host/device buffer
writes and the assembled output.  On a thrown error the call returns the
state as mutated so far with no output. -/
def simulate_lines (env : Env) (s : GpuState) :
    GpuState × Except SimError (List (List Cplx)) :=
  let s3 := preprocess s
  match simCore env (simView s3) with
  | .error e => (s3, .error e)
  | .ok (bufs, out) =>
    let num_lines := s3.scan_seq.lines.length
    ({ s3 with
        host_rf_lines := writeLines num_lines bufs s3.host_rf_lines,
        device_time_proj := writeProj num_lines s3.param_num_cuda_streams bufs s3.device_time_proj },
     .ok out)

/-- Embedding of `GpuAlgorithm::clear_fixed_scatterers`. -/
def clear_fixed_scatterers (s : GpuState) : GpuState :=
  { s with num_fixed_scatterers := 0 }

/-- Embedding of `GpuAlgorithm::clear_spline_scatterers`. -/
def clear_spline_scatterers (s : GpuState) : GpuState :=
  { s with num_spline_scatterers := 0 }

/-- The public operations of the algorithm, for stating invariants quantified
over every operation. -/
inductive Op where
  | param (cmd : ParamCmd)
  | excitation (e : ExcitationSignal)
  | scanSequence (q : ScanSequence)
  | analyticalProfile (sigma_lat sigma_ele : ℚ)
  | lookupProfile (p : LUTBeamProfile)
  | fixedScatterers (sc : FixedScatterers)
  | splineScatterers (sc : SplineScatterers)
  | clearFixed
  | clearSpline
  | simulate

/-- The state reached after running one operation (the state component of the
corresponding member function, whether or not it throws). -/
def applyOp (env : Env) (s : GpuState) : Op → GpuState
  | .param cmd => (set_parameter env s cmd).1
  | .excitation e => set_excitation env s e
  | .scanSequence q => (set_scan_sequence env s q).1
  | .analyticalProfile sl se => set_analytical_profile s sl se
  | .lookupProfile p => set_lookup_profile s p
  | .fixedScatterers sc => copy_fixed_scatterers s sc
  | .splineScatterers sc => (copy_spline_scatterers env s sc).1
  | .clearFixed => clear_fixed_scatterers s
  | .clearSpline => clear_spline_scatterers s
  | .simulate => (simulate_lines env s).1

/-! Generic helper lemmas about loops embedded as folds over `List.range`. -/

theorem foldl_range_succ {α : Type _} (f : α → ℕ → α) (a : α) (n : ℕ) :
    (List.range (n + 1)).foldl f a = f ((List.range n).foldl f a) n := by
  rw [List.range_succ, List.foldl_append]
  rfl

theorem getD_map_range {α : Type _} (f : ℕ → α) (n k : ℕ) (d : α) (h : k < n) :
    ((List.range n).map f).getD k d = f k := by
  rw [List.getD_eq_getElem?_getD, List.getElem?_map, List.getElem?_range h]
  rfl

theorem getD_of_all_eq {α : Type _} {l : List α} {c : α} (h : ∀ x ∈ l, x = c) (n : ℕ) :
    l.getD n c = c := by
  rw [List.getD_eq_getElem?_getD]
  cases hn : l[n]? with
  | none => rfl
  | some x =>
    obtain ⟨hlt, rfl⟩ := List.getElem?_eq_some.mp hn
    simp [h _ (List.getElem_mem hlt)]

/-- A loop `for j in [0, n): arr[idx j] := val j` preserves the length. -/
theorem length_foldl_set {α : Type _} (idx : ℕ → ℕ) (val : ℕ → α) (n : ℕ) (l : List α) :
    ((List.range n).foldl (fun a j => a.set (idx j) (val j)) l).length = l.length := by
  induction n with
  | zero => rfl
  | succ m ih => rw [foldl_range_succ, List.length_set, ih]

/-- A loop `for j in [0, n): arr[idx j] := val j` does not change positions it
never writes. -/
theorem foldl_set_getD_miss {α : Type _} (idx : ℕ → ℕ) (val : ℕ → α) (n : ℕ) (l : List α)
    (j : ℕ) (d : α) (h : ∀ i < n, idx i ≠ j) :
    ((List.range n).foldl (fun a i => a.set (idx i) (val i)) l).getD j d = l.getD j d := by
  induction n with
  | zero => rfl
  | succ m ih =>
    rw [foldl_range_succ]
    rw [List.getD_eq_getElem?_getD, List.getElem?_set_ne (h m (Nat.lt_succ_self m)),
      ← List.getD_eq_getElem?_getD]
    exact ih fun i hi => h i (Nat.lt_succ_of_lt hi)

/-- A loop `for j in [0, n): arr[idx j] := val j` leaves `val i` at `idx i`
when no later iteration writes the same position. -/
theorem foldl_set_getD_hit {α : Type _} (idx : ℕ → ℕ) (val : ℕ → α) (n : ℕ) (l : List α)
    (i : ℕ) (d : α) (hi : i < n) (hlast : ∀ i', i < i' → i' < n → idx i' ≠ idx i)
    (hlen : idx i < l.length) :
    ((List.range n).foldl (fun a j => a.set (idx j) (val j)) l).getD (idx i) d = val i := by
  induction n with
  | zero => exact absurd hi (Nat.not_lt_zero i)
  | succ m ih =>
    rw [foldl_range_succ]
    rcases Nat.lt_succ_iff_lt_or_eq.mp hi with hlt | heq
    · rw [List.getD_eq_getElem?_getD,
        List.getElem?_set_ne (hlast m hlt (Nat.lt_succ_self m)),
        ← List.getD_eq_getElem?_getD]
      exact ih hlt fun i' h1 h2 => hlast i' h1 (Nat.lt_succ_of_lt h2)
    · subst heq
      rw [List.getD_eq_getElem?_getD,
        List.getElem?_set_eq_of_lt _ (by rw [length_foldl_set]; exact hlen)]
      rfl

/-! Lemmas about the spline control-point reorganization loops. -/

theorem spline_inner_loop_length (cps : ℕ → ℕ → ℚ) (n s0 m : ℕ) (arr : List ℚ) :
    (spline_inner_loop cps n s0 m arr).length = arr.length :=
  length_foldl_set _ _ m arr

theorem spline_inner_loop_miss (cps : ℕ → ℕ → ℚ) (n s0 m : ℕ) (arr : List ℚ) (j : ℕ)
    (h : ∀ i < m, s0 + i * n ≠ j) :
    (spline_inner_loop cps n s0 m arr).getD j 0 = arr.getD j 0 :=
  foldl_set_getD_miss _ _ m arr j 0 h

theorem spline_inner_loop_hit (cps : ℕ → ℕ → ℚ) (n s0 m : ℕ) (arr : List ℚ) (i : ℕ)
    (hn : 0 < n) (hi : i < m) (hlen : s0 + i * n < arr.length) :
    (spline_inner_loop cps n s0 m arr).getD (s0 + i * n) 0 = cps s0 i := by
  exact foldl_set_getD_hit (fun i => s0 + i * n) (fun i => cps s0 i) m arr i 0 hi
    (fun i' h1 _ heq => by
      have heq' : s0 + i' * n = s0 + i * n := heq
      have : i' * n = i * n := by omega
      exact absurd (Nat.eq_of_mul_eq_mul_right hn this) (by omega))
    hlen

theorem spline_outer_length (cps : ℕ → ℕ → ℚ) (n m t : ℕ) (arr : List ℚ) :
    ((List.range t).foldl (fun a sp => spline_inner_loop cps n sp m a) arr).length =
      arr.length := by
  induction t with
  | zero => rfl
  | succ u ih => rw [foldl_range_succ, spline_inner_loop_length, ih]

theorem spline_outer_getD (cps : ℕ → ℕ → ℚ) (n m t : ℕ) (arr : List ℚ)
    (hlen : arr.length = n * m) (htn : t ≤ n) :
    ∀ s0 < t, ∀ i < m,
      ((List.range t).foldl (fun a sp => spline_inner_loop cps n sp m a) arr).getD
        (s0 + i * n) 0 = cps s0 i := by
  induction t with
  | zero => intro s0 h; exact absurd h (Nat.not_lt_zero s0)
  | succ u ih =>
    intro s0 hs0 i hi
    have hn : 0 < n := Nat.lt_of_lt_of_le (Nat.lt_of_le_of_lt (Nat.zero_le u) (Nat.lt_succ_self u)) htn
    rw [foldl_range_succ]
    rcases Nat.lt_succ_iff_lt_or_eq.mp hs0 with hlt | heq
    · rw [spline_inner_loop_miss]
      · exact ih (Nat.le_of_succ_le htn) s0 hlt i hi
      · intro i' _ heq
        have hu : u < n := Nat.lt_of_lt_of_le (Nat.lt_succ_self u) htn
        have hmod : (u + i' * n) % n = (s0 + i * n) % n := by rw [heq]
        rw [Nat.add_mul_mod_self_right, Nat.add_mul_mod_self_right,
          Nat.mod_eq_of_lt hu, Nat.mod_eq_of_lt (Nat.lt_trans hlt hu)] at hmod
        omega
    · subst heq
      apply spline_inner_loop_hit
      · exact hn
      · exact hi
      · rw [spline_outer_length, hlen]
        calc s0 + i * n < n + i * n := by omega
          _ = (i + 1) * n := by ring
          _ ≤ m * n := Nat.mul_le_mul_right n (by omega)
          _ = n * m := Nat.mul_comm m n

/-- The final layout fact for one coordinate array: the entry at offset
`s0 + i * num_splines` is the `i`-th control-point component of scatterer
`s0`. -/
theorem spline_host_array_getD (cps : ℕ → ℕ → ℚ) (n m : ℕ) (s0 i : ℕ)
    (hs0 : s0 < n) (hi : i < m) :
    (spline_host_array cps n m).getD (s0 + i * n) 0 = cps s0 i := by
  exact spline_outer_getD cps n m n _ (by rw [List.length_replicate]) (Nat.le_refl n)
    s0 hs0 i hi

/-- The amplitude array stores scatterer `s0`'s amplitude at offset `s0`. -/
theorem spline_amp_array_getD (amps : ℕ → ℚ) (n : ℕ) (s0 : ℕ) (hs0 : s0 < n) :
    (spline_amp_array amps n).getD s0 0 = amps s0 := by
  exact foldl_set_getD_hit (fun i => i) amps n _ s0 0 hs0
    (fun i' h1 _ heq => by have heq' : i' = s0 := heq; omega)
    (by rw [List.length_replicate]; exact hs0)

/-! Indexing lemmas for the flattened nested loops of `set_lookup_profile`. -/

theorem flatten_map_range_length {α : Type _} (f : ℕ → List α) (n c : ℕ)
    (hlen : ∀ i < n, (f i).length = c) :
    ((List.range n).map f).flatten.length = n * c := by
  induction n with
  | zero => simp
  | succ m ih =>
    rw [List.range_succ, List.map_append, List.flatten_append]
    simp only [List.map_cons, List.map_nil, List.flatten_cons, List.flatten_nil,
      List.append_nil]
    rw [List.length_append, ih (fun i hi => hlen i (Nat.lt_succ_of_lt hi)),
      hlen m (Nat.lt_succ_self m)]
    ring

theorem flatten_map_range_getD {α : Type _} (f : ℕ → List α) (n c : ℕ) (d : α)
    (hlen : ∀ i < n, (f i).length = c) (i j : ℕ) (hi : i < n) (hj : j < c) :
    ((List.range n).map f).flatten.getD (i * c + j) d = (f i).getD j d := by
  induction n with
  | zero => exact absurd hi (Nat.not_lt_zero i)
  | succ m ih =>
    rw [List.range_succ, List.map_append, List.flatten_append]
    simp only [List.map_cons, List.map_nil, List.flatten_cons, List.flatten_nil,
      List.append_nil]
    have hL : ((List.range m).map f).flatten.length = m * c :=
      flatten_map_range_length f m c (fun i hi => hlen i (Nat.lt_succ_of_lt hi))
    rcases Nat.lt_succ_iff_lt_or_eq.mp hi with hlt | heq
    · have hb : i * c + j < m * c := by
        have h1 : i * c + c ≤ m * c := by
          calc i * c + c = (i + 1) * c := by ring
            _ ≤ m * c := Nat.mul_le_mul_right c (by omega)
        omega
      rw [List.getD_eq_getElem?_getD, List.getElem?_append, if_pos (by rw [hL]; exact hb),
        ← List.getD_eq_getElem?_getD]
      exact ih (fun i hi => hlen i (Nat.lt_succ_of_lt hi)) hlt
    · subst heq
      rw [List.getD_eq_getElem?_getD, List.getElem?_append, if_neg (by rw [hL]; omega), hL]
      have hsub : i * c + j - i * c = j := by omega
      rw [hsub, ← List.getD_eq_getElem?_getD]

/-! Lemmas about decimation and output assembly. -/

theorem lt_decim_count_iff (num dec k : ℕ) (hd : 0 < dec) :
    k < decim_count num dec ↔ k * dec < num := by
  unfold decim_count
  constructor
  · intro h
    have h2 : (k + 1) * dec ≤ num + dec - 1 := (Nat.le_div_iff_mul_le hd).mp h
    rw [Nat.add_mul, Nat.one_mul] at h2
    omega
  · intro h
    have h2 : (k + 1) * dec ≤ num + dec - 1 := by rw [Nat.add_mul, Nat.one_mul]; omega
    exact (Nat.le_div_iff_mul_le hd).mpr h2

theorem assemble_line_length (host : List Cplx) (num dec c : ℕ) :
    (assemble_line host num dec c).length = decim_count num dec := by
  unfold assemble_line readIdxs
  rw [List.length_map, List.length_map, List.length_range]

theorem assemble_line_getD (host : List Cplx) (num dec c k : ℕ) (hd : 0 < dec)
    (hk : k * dec < num) :
    (assemble_line host num dec c).getD k 0 = host.getD (k * dec + c) 0 := by
  unfold assemble_line readIdxs
  rw [List.map_map]
  exact getD_map_range _ _ k 0 ((lt_decim_count_iff num dec k hd).mpr hk)

theorem assemble_line_all_zero {host : List Cplx} (h : ∀ x ∈ host, x = 0)
    (num dec c : ℕ) : ∀ y ∈ assemble_line host num dec c, y = 0 := by
  intro y hy
  unfold assemble_line at hy
  obtain ⟨idx, _, rfl⟩ := List.mem_map.mp hy
  exact getD_of_all_eq h idx

/-- The DFT of an all-zero buffer is all-zero, for any twiddle factors. -/
theorem dftWith_all_zero (w : ℕ → ℕ → Cplx) {xs : List Cplx} (h : ∀ x ∈ xs, x = 0) :
    ∀ y ∈ dftWith w xs, y = 0 := by
  intro y hy
  unfold dftWith at hy
  obtain ⟨k, _, rfl⟩ := List.mem_map.mp hy
  apply sumC_eq_zero
  intro z hz
  obtain ⟨n, _, rfl⟩ := List.mem_map.mp hz
  rw [getD_of_all_eq h n, Cplx.mul_zero']

/-! Lemmas about the buffer writes and state mutations of `simulate_lines`. -/

theorem writeLines_length (n : ℕ) (bufs hosts : List (List Cplx)) :
    (writeLines n bufs hosts).length = hosts.length :=
  length_foldl_set (fun j => j) (fun j => bufs.getD j []) n hosts

theorem writeLines_getD (n : ℕ) (bufs hosts : List (List Cplx)) (j : ℕ)
    (hj : j < n) (hlen : j < hosts.length) :
    (writeLines n bufs hosts).getD j [] = bufs.getD j [] :=
  foldl_set_getD_hit (fun j => j) (fun j => bufs.getD j []) n hosts j [] hj
    (fun i' h1 _ heq => by have heq' : i' = j := heq; omega) hlen

theorem preprocess_can_change (s : GpuState) :
    (preprocess s).can_change_cuda_device = false := by
  unfold preprocess create_cuda_stream_wrappers
  dsimp only
  split <;> split <;> rfl

theorem preprocess_scan_seq (s : GpuState) : (preprocess s).scan_seq = s.scan_seq := by
  unfold preprocess create_cuda_stream_wrappers
  dsimp only
  split <;> split <;> rfl

theorem preprocess_host_rf_lines (s : GpuState) :
    (preprocess s).host_rf_lines = s.host_rf_lines := by
  unfold preprocess create_cuda_stream_wrappers
  dsimp only
  split <;> split <;> rfl

theorem preprocess_num_streams (s : GpuState) :
    (preprocess s).param_num_cuda_streams = s.param_num_cuda_streams := by
  unfold preprocess create_cuda_stream_wrappers
  dsimp only
  split <;> split <;> rfl

theorem simView_preprocess (s : GpuState) : simView (preprocess s) = simView s := by
  unfold preprocess create_cuda_stream_wrappers
  dsimp only
  split <;> split <;> rfl

theorem round_up_div_zero (y : ℕ) : round_up_div 0 y = 0 := by
  unfold round_up_div
  rcases Nat.eq_zero_or_pos y with h | h
  · simp [h]
  · exact Nat.div_eq_of_lt (by omega)

/-- The FFT/multiply/FFT/demodulate tail maps an all-zero buffer to an
all-zero buffer, for any twiddle factors, excitation spectrum and
demodulation phase factors. -/
theorem fftStages_all_zero (env : Env) (v : SimView) {buf2 : List Cplx}
    (h : ∀ x ∈ buf2, x = 0) : ∀ y ∈ fftStages env v buf2, y = 0 := by
  unfold fftStages
  have h3 := dftWith_all_zero env.fwd_w h
  have h4 : ∀ x ∈ ((List.range v.num_time_samples).map fun i =>
      (dftWith env.fwd_w buf2).getD i 0 * (v.device_excitation_fft.getD []).getD i 0),
      x = 0 := by
    intro x hx
    obtain ⟨i, _, rfl⟩ := List.mem_map.mp hx
    rw [getD_of_all_eq h3 i, Cplx.zero_mul']
  have h5 := dftWith_all_zero env.inv_w h4
  intro y hy
  obtain ⟨i, _, rfl⟩ := List.mem_map.mp hy
  rw [getD_of_all_eq h5 i, Cplx.mul_zero']

/-- With no fixed and no spline scatterers neither projection kernel runs, so
the per-line pipeline succeeds and produces an all-zero line. -/
theorem computeLine_zero_scatterers (env : Env) (v : SimView) (sl : Scanline)
    (st : ℕ) (hfix : v.num_fixed_scatterers = 0) (hspl : v.num_spline_scatterers = 0) :
    computeLine env v sl st = .ok (fftStages env v (List.replicate v.num_time_samples 0)) ∧
      ∀ x ∈ fftStages env v (List.replicate v.num_time_samples 0), x = 0 := by
  constructor
  · unfold computeLine
    rw [hfix, hspl]
    rfl
  · exact fftStages_all_zero env v fun x hx => List.eq_of_mem_replicate hx

theorem mapM_singleton {ε α β : Type _} (f : α → Except ε β) (a : α) :
    List.mapM f [a] = (f a).map fun b => [b] := by
  cases h : f a <;> simp [List.mapM, List.mapM.loop, h, Except.map]

/-- Inversion of a successful `simCore`: the assembled output is the decimated
walk of each line's host buffer starting at the excitation center index. -/
theorem simCore_ok_out {env : Env} {v : SimView} {bufs out}
    (hc : simCore env v = .ok (bufs, out)) :
    out = (List.range v.scan_seq.lines.length).map fun line_no =>
      assemble_line (bufs.getD line_no [])
        (env.compute_num_rf_samples v.param_sound_speed v.scan_seq.line_length
          v.excitation.sampling_frequency)
        v.m_radial_decimation v.excitation.center_index := by
  unfold simCore at hc
  dsimp only at hc
  split at hc
  · simp at hc
  split at hc
  · simp at hc
  split at hc
  · simp at hc
  split at hc
  · simp at hc
  split at hc
  · simp at hc
  · simp only [Except.ok.injEq, Prod.mk.injEq] at hc
    obtain ⟨h1, h2⟩ := hc
    subst h1
    exact h2.symm

/-- Inversion of a successful `simulate_lines` call: a successful `simCore`
run on the view of the state, the host buffers holding the computed lines,
and the returned output. -/
theorem simulate_lines_ok_inv {env : Env} {s : GpuState} {s' : GpuState}
    {out : List (List Cplx)} (h : simulate_lines env s = (s', .ok out)) :
    ∃ bufs, simCore env (simView s) = .ok (bufs, out) ∧
      s' = { preprocess s with
              host_rf_lines :=
                writeLines (preprocess s).scan_seq.lines.length bufs
                  (preprocess s).host_rf_lines,
              device_time_proj :=
                writeProj (preprocess s).scan_seq.lines.length
                  (preprocess s).param_num_cuda_streams bufs
                  (preprocess s).device_time_proj } := by
  unfold simulate_lines at h
  dsimp only at h
  rw [simView_preprocess] at h
  cases hc : simCore env (simView s) with
  | error e => rw [hc] at h; simp at h
  | ok p =>
    obtain ⟨bufs, out0⟩ := p
    rw [hc] at h
    simp only [Prod.mk.injEq, Except.ok.injEq] at h
    obtain ⟨h1, h2⟩ := h
    refine ⟨bufs, ?_, ?_⟩
    · rw [h2]
    · exact h1.symm

theorem simView_scan_seq (s : GpuState) : (simView s).scan_seq = s.scan_seq := rfl

theorem simView_excitation (s : GpuState) : (simView s).excitation = s.excitation := rfl

theorem simView_num_fixed (s : GpuState) :
    (simView s).num_fixed_scatterers = s.num_fixed_scatterers := rfl

theorem simView_num_spline (s : GpuState) :
    (simView s).num_spline_scatterers = s.num_spline_scatterers := rfl

theorem simView_profile_type (s : GpuState) :
    (simView s).cur_beam_profile_type = s.cur_beam_profile_type := rfl

theorem simView_num_streams (s : GpuState) :
    (simView s).param_num_cuda_streams = s.param_num_cuda_streams := rfl

theorem simView_sound_speed (s : GpuState) :
    (simView s).param_sound_speed = s.param_sound_speed := rfl

theorem simView_decimation (s : GpuState) :
    (simView s).m_radial_decimation = s.m_radial_decimation := rfl

/-- The state after one call of `simulate_lines` always has the device-change
latch locked, whether the call succeeded or threw. -/
theorem simulate_lines_can_change (env : Env) (s : GpuState) :
    (simulate_lines env s).1.can_change_cuda_device = false := by
  unfold simulate_lines
  dsimp only
  cases simCore env (simView (preprocess s)) with
  | error e => exact preprocess_can_change s
  | ok p =>
    obtain ⟨bufs, out⟩ := p
    exact preprocess_can_change s

/-- Inversion of a successful `set_scan_sequence` call: either the line count
exceeded the allocated count and all scan-dependent buffers were freshly
allocated, or the call returned early leaving every buffer unchanged. -/
theorem set_scan_sequence_ok_inv {env : Env} {s : GpuState} {q : ScanSequence}
    {s' : GpuState} (h : set_scan_sequence env s q = (s', .ok ())) :
    (s.num_beams_allocated < (q.lines.length : ℤ) ∧
      s' = { s with
              can_change_cuda_device := false
              scan_seq := q
              device_time_proj :=
                List.replicate s.param_num_cuda_streams
                  (List.replicate s.num_time_samples (0 : Cplx))
              host_rf_lines :=
                List.replicate q.lines.length (List.replicate s.num_time_samples (0 : Cplx))
              num_beams_allocated := (q.lines.length : ℤ) }) ∨
    ((q.lines.length : ℤ) ≤ s.num_beams_allocated ∧
      s' = { s with can_change_cuda_device := false, scan_seq := q }) := by
  unfold set_scan_sequence at h
  dsimp only at h
  split at h
  · simp at h
  · split at h
    · left
      simp only [Prod.mk.injEq] at h
      exact ⟨by assumption, h.1.symm⟩
    · right
      simp only [Prod.mk.injEq] at h
      refine ⟨by omega, h.1.symm⟩

/-- The capacity check of `set_scan_sequence` fails exactly when the computed
RF-sample count exceeds the fixed `num_time_samples` capacity; the excitation
center index plays no part in the bound. -/
theorem set_scan_sequence_error_iff (env : Env) (s : GpuState) (q : ScanSequence) :
    (set_scan_sequence env s q).2 = .error .tooManyRfSamples ↔
      s.num_time_samples <
        env.compute_num_rf_samples s.param_sound_speed q.line_length
          s.excitation.sampling_frequency := by
  unfold set_scan_sequence
  dsimp only
  split
  · rename_i h1
    exact ⟨fun _ => h1, fun _ => rfl⟩
  · rename_i h1
    split
    · exact ⟨fun hco => absurd hco (by simp), fun hlt => absurd hlt h1⟩
    · exact ⟨fun hco => absurd hco (by simp), fun hlt => absurd hlt h1⟩

/-! Concrete fixtures used by the witnesses: an environment with explicit
modelled externals and small configured states. -/

def envW : Env where
  device_count := 1
  max_grid_size_x := 1000
  max_num_cuda_streams := 16
  max_spline_degree := 3
  compute_num_rf_samples := fun _ len _ => if 100 < len then 9000 else 1
  fwd_w := fun _ _ => ⟨1, 0⟩
  inv_w := fun _ _ => ⟨1, 0⟩
  hilbert_mask := fun n => List.replicate n ⟨1, 0⟩
  demod_phase := fun _ _ => ⟨1, 0⟩
  fixed_projection := fun _ b => b
  spline_projection := fun _ b => .ok b

/-- A fully configured small state: one scanline, one stream, analytical
profile, two time samples, no scatterers. -/
def simStateW : GpuState :=
  { initState envW with
      num_time_samples := 2
      param_num_cuda_streams := 1
      num_stream_wrappers := 1
      scan_seq := ⟨[⟨⟨0, 0, 0⟩, ⟨0, 0, 1⟩, ⟨1, 0, 0⟩, ⟨0, 1, 0⟩, 0⟩], 1⟩
      cur_beam_profile_type := BeamProfileType.ANALYTICAL
      device_excitation_fft := some [⟨1, 0⟩, ⟨1, 0⟩]
      host_rf_lines := [[0, 0]]
      device_time_proj := [[0, 0]]
      device_beam_profile := []
      num_beams_allocated := 1 }

/-- A scan sequence whose required RF-sample count exceeds the capacity under
`envW`. -/
def seqTooBigW : ScanSequence := ⟨[⟨⟨0, 0, 0⟩, ⟨0, 0, 1⟩, ⟨1, 0, 0⟩, ⟨0, 1, 0⟩, 0⟩], 200⟩

/-- The state reached from a fresh instance by one failing
`set_scan_sequence` call: the latch is locked but nothing was allocated. -/
def stateLockedW : GpuState := (set_scan_sequence envW (initState envW) seqTooBigW).1

/-- A small scan sequence with `n` identical lines. -/
def seqN (n : ℕ) : ScanSequence :=
  ⟨List.replicate n ⟨⟨0, 0, 0⟩, ⟨0, 0, 1⟩, ⟨1, 0, 0⟩, ⟨0, 1, 0⟩, 0⟩, 1⟩

/-- Spline fixture: two scatterers with two control points each. -/
def splineScW : SplineScatterers :=
  ⟨[[⟨1, 2, 3⟩, ⟨4, 5, 6⟩], [⟨7, 8, 9⟩, ⟨10, 11, 12⟩]], [100, 200], [0, 0, 1, 1], 1⟩

/-- Spline fixture with no scatterers. -/
def splineScEmptyW : SplineScatterers := ⟨[], [], [0, 1], 1⟩

/-- Spline fixture whose degree exceeds `envW.max_spline_degree`. -/
def splineScDegW : SplineScatterers := ⟨[[⟨1, 2, 3⟩]], [1], [0, 1], 4⟩

/-- Lookup-table fixture: 2×2×2 samples, profile returning its lateral
coordinate. -/
def lutW : LUTBeamProfile where
  num_samples_rad := 2
  num_samples_lat := 2
  num_samples_ele := 2
  r_range := (5, 6)
  l_range := (0, 1)
  e_range := (0, 3)
  sampleProfile := fun _ l _ => l

/-- No resource allocation has occurred in this state: no stream wrappers, no
device projection buffers, no pinned host buffers, no excitation FFT buffer,
no scatterer device arrays. -/
def no_alloc (s : GpuState) : Prop :=
  s.num_stream_wrappers = 0 ∧ s.device_time_proj = [] ∧ s.host_rf_lines = [] ∧
    s.device_excitation_fft = none ∧ s.device_point_xs = none ∧
    s.device_point_ys = none ∧ s.device_point_zs = none ∧ s.device_point_as = none ∧
    s.device_control_xs = none ∧ s.device_control_ys = none ∧
    s.device_control_zs = none ∧ s.device_control_as = none

instance (s : GpuState) : Decidable (no_alloc s) := by
  unfold no_alloc
  infer_instance

/-- Claim C3, counterexample to the claim as stated: `set_parameter
("gpu_device", n)` does not succeed whenever no resource allocation has yet
occurred.  From a fresh instance, one `set_scan_sequence` call that fails its
RF-sample capacity check allocates nothing, yet afterwards a `gpu_device`
change with the valid device number `0` fails, because every such call locks
the device-change latch before validating or allocating anything. -/
theorem claim_C3_counterexample :
    no_alloc stateLockedW ∧
      (set_scan_sequence envW (initState envW) seqTooBigW).2 =
        .error SimError.tooManyRfSamples ∧
      0 < envW.device_count ∧
      (set_parameter envW stateLockedW (ParamCmd.gpuDevice 0)).2 =
        .error SimError.cannotChangeDevice := by
  decide

/-- Claim C3 (amended): `set_parameter("gpu_device", n)` with a valid device
number succeeds exactly while the device-change latch is unlocked and fails
with an error once it is locked; the latch is a one-way transition — locked
not only on stream/resource creation but at the start of `simulate_lines`,
`set_excitation`, `set_scan_sequence` and scatterer upload — and no
operation ever resets it to unlocked. -/
theorem claim_C3 (env : Env) (s : GpuState) (n : ℤ) :
    (s.can_change_cuda_device = true → 0 ≤ n → n < (env.device_count : ℤ) →
      (set_parameter env s (ParamCmd.gpuDevice n)).2 = .ok () ∧
        (set_parameter env s (ParamCmd.gpuDevice n)).1.param_cuda_device_no = n) ∧
    (s.can_change_cuda_device = false →
      set_parameter env s (ParamCmd.gpuDevice n) = (s, .error .cannotChangeDevice)) ∧
    (∀ op : Op, s.can_change_cuda_device = false →
      (applyOp env s op).can_change_cuda_device = false) := by
  refine ⟨?_, ?_, ?_⟩
  · intro htrue h0 hlt
    unfold set_parameter
    dsimp only
    rw [htrue]
    rw [if_neg (by simp)]
    rw [if_neg (by omega)]
    exact ⟨rfl, rfl⟩
  · intro hfalse
    unfold set_parameter
    dsimp only
    rw [hfalse]
    rw [if_pos rfl]
  · intro op hfalse
    cases op with
    | param cmd =>
      cases cmd <;> unfold applyOp set_parameter <;> dsimp only
      case gpuDevice m =>
        rw [hfalse, if_pos rfl]
        exact hfalse
      case cudaStreams m => split
                            · exact hfalse
                            · split
                              · exact hfalse
                              · exact hfalse
      case threadsPerBlock m => split
                                · exact hfalse
                                · exact hfalse
      case noiseAmplitude => exact hfalse
      case storeKernelDetails v => split
                                   · exact hfalse
                                   · split
                                     · exact hfalse
                                     · exact hfalse
      case soundSpeed c => exact hfalse
      case radialDecimation m => exact hfalse
      case verbose b => exact hfalse
      case useArcProjection b => exact hfalse
      case phaseDelay b => exact hfalse
    | excitation e => rfl
    | scanSequence q =>
      unfold applyOp set_scan_sequence
      dsimp only
      split
      · rfl
      · split <;> rfl
    | analyticalProfile sl se => exact hfalse
    | lookupProfile p => exact hfalse
    | fixedScatterers sc => rfl
    | splineScatterers sc =>
      unfold applyOp copy_spline_scatterers
      dsimp only
      split
      · rfl
      · split <;> rfl
    | clearFixed => exact hfalse
    | clearSpline => exact hfalse
    | simulate => exact simulate_lines_can_change env s

/-- Witness for the amended claim C3 at concrete inputs: on a fresh instance
the latch is unlocked, so a `gpu_device` change succeeds; on the locked state
it fails; and every operation keeps the latch locked. -/
theorem claim_C3_witness :
    ((initState envW).can_change_cuda_device = true ∧ (0 : ℤ) ≤ 0 ∧
      (0 : ℤ) < (envW.device_count : ℤ) ∧
      (set_parameter envW (initState envW) (ParamCmd.gpuDevice 0)).2 = .ok ()) ∧
    (stateLockedW.can_change_cuda_device = false ∧
      set_parameter envW stateLockedW (ParamCmd.gpuDevice 0) =
        (stateLockedW, .error .cannotChangeDevice)) ∧
    (applyOp envW stateLockedW Op.clearFixed).can_change_cuda_device = false := by
  refine ⟨⟨rfl, by decide, by decide, ?_⟩, ⟨by decide, ?_⟩, ?_⟩
  · exact ((claim_C3 envW (initState envW) 0).1 rfl (by decide) (by decide)).1
  · exact (claim_C3 envW stateLockedW 0).2.1 (by decide)
  · exact (claim_C3 envW stateLockedW 0).2.2 Op.clearFixed (by decide)

/-- Claim C9: `simulate_lines`, `set_excitation`, `set_scan_sequence` and both
scatterer uploads lock the device-change latch as their first action, before
any validation or allocation: the latch is locked in the post-state
unconditionally, a `simulate_lines` call that fails its zero-scanline
validation still returns the "no scanlines" error with the latch locked, and
a `set_scan_sequence` call that fails its capacity validation locks the latch
while leaving every allocation-related field untouched. -/
theorem claim_C9 (env : Env) (s : GpuState) (e : ExcitationSignal)
    (q : ScanSequence) (fsc : FixedScatterers) (ssc : SplineScatterers) :
    (set_excitation env s e).can_change_cuda_device = false ∧
    (set_scan_sequence env s q).1.can_change_cuda_device = false ∧
    (copy_fixed_scatterers s fsc).can_change_cuda_device = false ∧
    (copy_spline_scatterers env s ssc).1.can_change_cuda_device = false ∧
    (simulate_lines env s).1.can_change_cuda_device = false ∧
    (s.scan_seq.lines = [] →
      (simulate_lines env s).2 = .error .noScanlines) ∧
    (s.num_time_samples <
        env.compute_num_rf_samples s.param_sound_speed q.line_length
          s.excitation.sampling_frequency →
      (set_scan_sequence env s q).2 = .error .tooManyRfSamples ∧
        (set_scan_sequence env s q).1.num_stream_wrappers = s.num_stream_wrappers ∧
        (set_scan_sequence env s q).1.host_rf_lines = s.host_rf_lines ∧
        (set_scan_sequence env s q).1.device_time_proj = s.device_time_proj ∧
        (set_scan_sequence env s q).1.device_excitation_fft = s.device_excitation_fft) := by
  refine ⟨rfl, ?_, rfl, ?_, simulate_lines_can_change env s, ?_, ?_⟩
  · unfold set_scan_sequence
    dsimp only
    split
    · rfl
    · split <;> rfl
  · unfold copy_spline_scatterers
    dsimp only
    split
    · rfl
    · split <;> rfl
  · intro hempty
    unfold simulate_lines
    dsimp only
    rw [simView_preprocess]
    have hc : simCore env (simView s) = .error .noScanlines := by
      unfold simCore
      rw [if_pos (by rw [simView_scan_seq, hempty]; exact Nat.zero_lt_one)]
    rw [hc]
  · intro hcap
    unfold set_scan_sequence
    dsimp only
    rw [if_pos hcap]
    exact ⟨rfl, rfl, rfl, rfl, rfl⟩

/-- Witness for claim C9 at concrete inputs. -/
theorem claim_C9_witness :
    (set_excitation envW (initState envW) ⟨[1], 1, 1, 0⟩).can_change_cuda_device = false ∧
    (simulate_lines envW (initState envW)).2 = .error .noScanlines ∧
    (set_scan_sequence envW (initState envW) seqTooBigW).2 = .error .tooManyRfSamples := by
  have h := claim_C9 envW (initState envW) ⟨[1], 1, 1, 0⟩ seqTooBigW ⟨[]⟩ splineScW
  exact ⟨h.1, h.2.2.2.2.2.1 rfl, (h.2.2.2.2.2.2 (by decide)).1⟩

/-- Claim C4: across two consecutive successful `set_scan_sequence` calls with
line counts `L1` then `L2`, the first call leaves the allocated count at
least `L1`; the second reallocates the per-stream device projection buffers
and the per-line pinned host buffers and records `L2` exactly when `L2`
exceeds the currently allocated count, and otherwise returns early leaving
every device and host buffer and the allocated count unchanged; the capacity
never shrinks below its previous high-water mark. -/
theorem claim_C4 (env : Env) (s s1 s2 : GpuState) (q1 q2 : ScanSequence)
    (h1 : set_scan_sequence env s q1 = (s1, .ok ()))
    (h2 : set_scan_sequence env s1 q2 = (s2, .ok ())) :
    (q1.lines.length : ℤ) ≤ s1.num_beams_allocated ∧
    (s1.num_beams_allocated < (q2.lines.length : ℤ) →
      s2.num_beams_allocated = (q2.lines.length : ℤ) ∧
      s2.host_rf_lines =
        List.replicate q2.lines.length (List.replicate s1.num_time_samples (0 : Cplx)) ∧
      s2.device_time_proj =
        List.replicate s1.param_num_cuda_streams
          (List.replicate s1.num_time_samples (0 : Cplx))) ∧
    ((q2.lines.length : ℤ) ≤ s1.num_beams_allocated →
      s2.host_rf_lines = s1.host_rf_lines ∧
      s2.device_time_proj = s1.device_time_proj ∧
      s2.num_beams_allocated = s1.num_beams_allocated) ∧
    s1.num_beams_allocated ≤ s2.num_beams_allocated := by
  rcases set_scan_sequence_ok_inv h1 with ⟨hc1, hs1⟩ | ⟨hc1, hs1⟩ <;>
    subst hs1 <;>
    rcases set_scan_sequence_ok_inv h2 with ⟨hc2, hs2⟩ | ⟨hc2, hs2⟩ <;>
      subst hs2 <;>
      dsimp only at hc1 hc2 ⊢ <;>
      refine ⟨by omega, fun hx => ?_, fun hx => ?_, by omega⟩ <;>
        first
          | exact ⟨rfl, rfl, rfl⟩
          | exact absurd hx (by omega)

/-- A fresh instance scaled down to two time samples (the claims quantify
over every state; a small capacity keeps concrete evaluation cheap). -/
def smallStateW : GpuState :=
  { initState envW with
      num_time_samples := 2
      device_beam_profile := [] }

/-- The state after configuring a one-line scan sequence on `smallStateW`. -/
def seq1StateW : GpuState := (set_scan_sequence envW smallStateW (seqN 1)).1

/-- The state after then configuring a two-line scan sequence. -/
def seq2StateW : GpuState := (set_scan_sequence envW seq1StateW (seqN 2)).1

/-- Witness for claim C4: growing from 1 to 2 lines reallocates and records
the larger count. -/
theorem claim_C4_witness :
    (set_scan_sequence envW smallStateW (seqN 1)).2 = .ok () ∧
    (set_scan_sequence envW seq1StateW (seqN 2)).2 = .ok () ∧
    ((1 : ℤ) ≤ seq1StateW.num_beams_allocated ∧
      (seq1StateW.num_beams_allocated < ((seqN 2).lines.length : ℤ) →
        seq2StateW.num_beams_allocated = ((seqN 2).lines.length : ℤ))) := by
  refine ⟨by decide, by decide, ?_⟩
  have h := claim_C4 envW smallStateW seq1StateW seq2StateW (seqN 1) (seqN 2)
    (by decide) (by decide)
  exact ⟨h.1, fun hx => (h.2.1 hx).1⟩

/-- Claim C10: during output assembly every host-buffer read is at index
`i + center_index` for some `i < num_rf_samples`; all such reads are in
bounds whenever `center_index + num_rf_samples ≤ num_time_samples`; and the
capacity check of `set_scan_sequence` compares only the computed RF-sample
count against `num_time_samples`, with the center index playing no part in
the bound. -/
theorem claim_C10 (num_rf dec center num_time : ℕ) (hd : 0 < dec) :
    (∀ idx ∈ readIdxs num_rf dec center, ∃ i, i < num_rf ∧ idx = i + center) ∧
    (center + num_rf ≤ num_time →
      ∀ idx ∈ readIdxs num_rf dec center, idx < num_time) ∧
    (∀ (env : Env) (s : GpuState) (q : ScanSequence),
      ((set_scan_sequence env s q).2 = .error .tooManyRfSamples ↔
        s.num_time_samples <
          env.compute_num_rf_samples s.param_sound_speed q.line_length
            s.excitation.sampling_frequency)) := by
  have hmem : ∀ idx ∈ readIdxs num_rf dec center, ∃ i, i < num_rf ∧ idx = i + center := by
    intro idx hidx
    unfold readIdxs at hidx
    obtain ⟨k, hk, rfl⟩ := List.mem_map.mp hidx
    have hk' : k < decim_count num_rf dec := List.mem_range.mp hk
    exact ⟨k * dec, (lt_decim_count_iff num_rf dec k hd).mp hk', rfl⟩
  refine ⟨hmem, ?_, set_scan_sequence_error_iff⟩
  intro hcap idx hidx
  obtain ⟨i, hi, rfl⟩ := hmem idx hidx
  omega

/-- Witness for claim C10 at concrete inputs. -/
theorem claim_C10_witness :
    (0 : ℕ) < 2 ∧
    (∀ idx ∈ readIdxs 5 2 3, ∃ i, i < 5 ∧ idx = i + 3) ∧
    (3 + 5 ≤ 8 → ∀ idx ∈ readIdxs 5 2 3, idx < 8) ∧
    ((set_scan_sequence envW (initState envW) seqTooBigW).2 =
        .error .tooManyRfSamples ↔
      (initState envW).num_time_samples <
        envW.compute_num_rf_samples (initState envW).param_sound_speed
          seqTooBigW.line_length (initState envW).excitation.sampling_frequency) := by
  have h := claim_C10 5 2 3 8 (by decide)
  exact ⟨by decide, h.1, h.2.1, h.2.2 envW (initState envW) seqTooBigW⟩

/-- Claim C5: uploading spline scatterers fails with an error when the
scatterer count is zero, and fails with a configuration error when the spline
degree exceeds the fixed maximum; in both cases the failure happens before
any device control-point or amplitude buffer is touched. -/
theorem claim_C5 (env : Env) (s : GpuState) (sc : SplineScatterers) :
    (sc.num_scatterers = 0 →
      (copy_spline_scatterers env s sc).2 = .error .noScatterers ∧
      (copy_spline_scatterers env s sc).1.device_control_xs = s.device_control_xs ∧
      (copy_spline_scatterers env s sc).1.device_control_ys = s.device_control_ys ∧
      (copy_spline_scatterers env s sc).1.device_control_zs = s.device_control_zs ∧
      (copy_spline_scatterers env s sc).1.device_control_as = s.device_control_as) ∧
    (sc.num_scatterers ≠ 0 → env.max_spline_degree < sc.spline_degree →
      (copy_spline_scatterers env s sc).2 = .error .maxSplineDegreeExceeded ∧
      (copy_spline_scatterers env s sc).1.device_control_xs = s.device_control_xs ∧
      (copy_spline_scatterers env s sc).1.device_control_ys = s.device_control_ys ∧
      (copy_spline_scatterers env s sc).1.device_control_zs = s.device_control_zs ∧
      (copy_spline_scatterers env s sc).1.device_control_as = s.device_control_as) := by
  constructor
  · intro h0
    unfold copy_spline_scatterers
    dsimp only
    rw [if_pos h0]
    exact ⟨rfl, rfl, rfl, rfl, rfl⟩
  · intro h0 hdeg
    unfold copy_spline_scatterers
    dsimp only
    rw [if_neg h0, if_pos hdeg]
    exact ⟨rfl, rfl, rfl, rfl, rfl⟩

/-- Witness for claim C5: an empty upload and an over-degree upload, both on
a fresh instance. -/
theorem claim_C5_witness :
    (copy_spline_scatterers envW (initState envW) splineScEmptyW).2 =
        .error .noScatterers ∧
    (copy_spline_scatterers envW (initState envW) splineScDegW).2 =
        .error .maxSplineDegreeExceeded := by
  exact ⟨((claim_C5 envW (initState envW) splineScEmptyW).1 (by decide)).1,
    ((claim_C5 envW (initState envW) splineScDegW).2 (by decide) (by decide)).1⟩

/-- Claim C6: after a successful spline upload, the flattened host (and hence
device) arrays hold the `i`-th control point of scatterer `s0` at offset
`s0 + i * N_spline` for each coordinate, and the amplitude of scatterer `s0`
at offset `s0`. -/
theorem claim_C6 (env : Env) (s s' : GpuState) (sc : SplineScatterers)
    (h : copy_spline_scatterers env s sc = (s', .ok ()))
    (_huni : ∀ l ∈ sc.control_points, l.length = sc.get_num_control_points)
    (s0 i : ℕ) (hs0 : s0 < sc.num_scatterers) (hi : i < sc.get_num_control_points) :
    (s'.device_control_xs.getD []).getD (s0 + i * sc.num_scatterers) 0 =
        ((sc.control_points.getD s0 []).getD i default).x ∧
    (s'.device_control_ys.getD []).getD (s0 + i * sc.num_scatterers) 0 =
        ((sc.control_points.getD s0 []).getD i default).y ∧
    (s'.device_control_zs.getD []).getD (s0 + i * sc.num_scatterers) 0 =
        ((sc.control_points.getD s0 []).getD i default).z ∧
    (s'.device_control_as.getD []).getD s0 0 = sc.amplitudes.getD s0 0 := by
  unfold copy_spline_scatterers at h
  dsimp only at h
  split at h
  · simp at h
  · split at h
    · simp at h
    · simp only [Prod.mk.injEq] at h
      rw [← h.1]
      dsimp only
      exact ⟨spline_host_array_getD _ _ _ s0 i hs0 hi,
        spline_host_array_getD _ _ _ s0 i hs0 hi,
        spline_host_array_getD _ _ _ s0 i hs0 hi,
        spline_amp_array_getD _ _ s0 hs0⟩

/-- Witness for claim C6 on the two-scatterer, two-control-point fixture:
scatterer 1's control point 0 lands at offset `1 + 0*2 = 1` and its
amplitude at offset `1`. -/
theorem claim_C6_witness :
    (copy_spline_scatterers envW smallStateW splineScW).2 = .ok () ∧
    ((((copy_spline_scatterers envW smallStateW splineScW).1.device_control_xs.getD
        []).getD (1 + 0 * splineScW.num_scatterers) 0 = 7) ∧
      (((copy_spline_scatterers envW smallStateW splineScW).1.device_control_as.getD
        []).getD 1 0 = 200)) := by
  have h := claim_C6 envW smallStateW
    (copy_spline_scatterers envW smallStateW splineScW).1 splineScW
    (by decide) (by decide) 1 0 (by decide) (by decide)
  exact ⟨by decide, by rw [h.1]; decide, by rw [h.2.2.2]; decide⟩

/-- The LUT grid value lemma: entry `(zi, yi, xi)` of the flattened volume in
loop order. -/
theorem lut_samples_getD (p : LUTBeamProfile) (zi yi xi : ℕ)
    (hz : zi < p.num_samples_rad) (hy : yi < p.num_samples_lat)
    (hx : xi < p.num_samples_ele) :
    (lut_samples p).getD ((zi * p.num_samples_lat + yi) * p.num_samples_ele + xi) 0 =
      p.sampleProfile
        (p.r_range.1 + (zi : ℚ) * (p.r_range.2 - p.r_range.1) /
          ((p.num_samples_rad : ℚ) - 1))
        (p.l_range.1 + (xi : ℚ) * (p.l_range.2 - p.l_range.1) /
          ((p.num_samples_lat : ℚ) - 1))
        (p.e_range.1 + (yi : ℚ) * (p.e_range.2 - p.e_range.1) /
          ((p.num_samples_ele : ℚ) - 1)) := by
  unfold lut_samples
  have hidx : (zi * p.num_samples_lat + yi) * p.num_samples_ele + xi =
      zi * (p.num_samples_lat * p.num_samples_ele) +
        (yi * p.num_samples_ele + xi) := by ring
  rw [hidx]
  rw [flatten_map_range_getD _ p.num_samples_rad
    (p.num_samples_lat * p.num_samples_ele) 0
    (fun i _ => flatten_map_range_length _ p.num_samples_lat p.num_samples_ele
      (fun j _ => by rw [List.length_map, List.length_range]))
    zi (yi * p.num_samples_ele + xi) hz
    (by
      have h1 : yi * p.num_samples_ele + p.num_samples_ele ≤
          p.num_samples_lat * p.num_samples_ele := by
        calc yi * p.num_samples_ele + p.num_samples_ele
            = (yi + 1) * p.num_samples_ele := by ring
          _ ≤ p.num_samples_lat * p.num_samples_ele :=
              Nat.mul_le_mul_right _ (by omega)
      omega)]
  rw [flatten_map_range_getD _ p.num_samples_lat p.num_samples_ele 0
    (fun j _ => by rw [List.length_map, List.length_range]) yi xi hy hx]
  rw [getD_map_range _ _ xi 0 hx]

/-- Claim C7, counterexample to the claim as stated.  Fixture: a 2×2×2
lookup profile whose host profile function returns its lateral coordinate,
lateral range `[0, 1]`, elevational range `[0, 3]`, radial range `[5, 6]`.
At `(zi, yi, xi) = (0, 0, 1)` (flat position 1) the claim predicts the
profile at the 0-th lateral and 1-st elevational grid coordinate,
`sampleProfile 5 0 3 = 0`; the code stores `sampleProfile 5 1 0 = 1`,
because the loop pairs the lateral coordinate with the innermost
(elevational) index `xi` and the elevational coordinate with the middle
(lateral) index `yi`. -/
theorem claim_C7_counterexample :
    (set_lookup_profile (initState envW) lutW).device_beam_profile.getD
        ((0 * 2 + 0) * 2 + 1) 0 ≠
      lutW.sampleProfile (5 + 0 * (6 - 5) / (2 - 1)) (0 + 0 * (1 - 0) / (2 - 1))
        (0 + 1 * (3 - 0) / (2 - 1)) := by
  have h1 : (set_lookup_profile (initState envW) lutW).device_beam_profile.getD
      ((0 * 2 + 0) * 2 + 1) 0 =
      0 + ((1 : ℕ) : ℚ) * (1 - 0) / (((2 : ℕ) : ℚ) - 1) := rfl
  have h2 : lutW.sampleProfile (5 + 0 * (6 - 5) / (2 - 1)) (0 + 0 * (1 - 0) / (2 - 1))
      (0 + 1 * (3 - 0) / (2 - 1)) = 0 + (0 : ℚ) * (1 - 0) / (2 - 1) := rfl
  rw [h1, h2]
  norm_num

/-- Claim C7 (amended): `set_lookup_profile` evaluates the host-side profile
with radial iteration outermost, then the lateral count, then the
elevational count innermost, and the sample stored at flat position
`(zi*num_lateral + yi)*num_elevational + xi` equals the profile sampled at
the `zi`-th radial grid coordinate, the lateral coordinate
`l_min + xi*(l_max-l_min)/(num_lateral-1)` (stepping with the innermost
index), and the elevational coordinate `e_min + yi*(e_max-e_min)/
(num_elevational-1)` (stepping with the middle index). -/
theorem claim_C7 (s : GpuState) (p : LUTBeamProfile) (zi yi xi : ℕ)
    (hz : zi < p.num_samples_rad) (hy : yi < p.num_samples_lat)
    (hx : xi < p.num_samples_ele) :
    (set_lookup_profile s p).device_beam_profile.getD
        ((zi * p.num_samples_lat + yi) * p.num_samples_ele + xi) 0 =
      p.sampleProfile
        (p.r_range.1 + (zi : ℚ) * (p.r_range.2 - p.r_range.1) /
          ((p.num_samples_rad : ℚ) - 1))
        (p.l_range.1 + (xi : ℚ) * (p.l_range.2 - p.l_range.1) /
          ((p.num_samples_lat : ℚ) - 1))
        (p.e_range.1 + (yi : ℚ) * (p.e_range.2 - p.e_range.1) /
          ((p.num_samples_ele : ℚ) - 1)) :=
  lut_samples_getD p zi yi xi hz hy hx

/-- Witness for the amended claim C7 at `(0, 0, 1)` on the fixture. -/
theorem claim_C7_witness :
    (0 : ℕ) < 2 ∧
      (set_lookup_profile (initState envW) lutW).device_beam_profile.getD
          ((0 * 2 + 0) * 2 + 1) 0 =
        lutW.sampleProfile (5 + 0 * (6 - 5) / (2 - 1)) (0 + 1 * (1 - 0) / (2 - 1))
          (0 + 0 * (3 - 0) / (2 - 1)) := by
  refine ⟨by decide, ?_⟩
  have h' : (set_lookup_profile (initState envW) lutW).device_beam_profile.getD
      ((0 * 2 + 0) * 2 + 1) 0 =
      lutW.sampleProfile
        (lutW.r_range.1 + ((0 : ℕ) : ℚ) * (lutW.r_range.2 - lutW.r_range.1) /
          ((lutW.num_samples_rad : ℚ) - 1))
        (lutW.l_range.1 + ((1 : ℕ) : ℚ) * (lutW.l_range.2 - lutW.l_range.1) /
          ((lutW.num_samples_lat : ℚ) - 1))
        (lutW.e_range.1 + ((0 : ℕ) : ℚ) * (lutW.e_range.2 - lutW.e_range.1) /
          ((lutW.num_samples_ele : ℚ) - 1)) :=
    claim_C7 (initState envW) lutW 0 0 1 (by decide) (by decide) (by decide)
  rw [h']
  norm_num [lutW]

/-- Claim C1: a successful `simulate_lines` call on a configured scan
sequence of `L` lines returns exactly `L` per-line sample sequences in
scanline order, and line `j`'s `k`-th sample equals the `j`-th pinned host
buffer's sample at index `k * decimation + center_index`, for every `k` with
`k * decimation < num_rf_samples`, where `num_rf_samples` is computed from
the sound speed, the scan sequence's line length and the excitation sampling
frequency. -/
theorem claim_C1 (env : Env) (s s' : GpuState) (out : List (List Cplx))
    (h : simulate_lines env s = (s', .ok out))
    (hdec : 0 < s.m_radial_decimation)
    (hhost : s.scan_seq.lines.length ≤ s.host_rf_lines.length) :
    out.length = s.scan_seq.lines.length ∧
    ∀ j < s.scan_seq.lines.length, ∀ k : ℕ,
      k * s.m_radial_decimation <
        env.compute_num_rf_samples s.param_sound_speed s.scan_seq.line_length
          s.excitation.sampling_frequency →
      (out.getD j []).getD k 0 =
        (s'.host_rf_lines.getD j []).getD
          (k * s.m_radial_decimation + s.excitation.center_index) 0 := by
  obtain ⟨bufs, hc, hs'⟩ := simulate_lines_ok_inv h
  have hout := simCore_ok_out hc
  simp only [simView_scan_seq, simView_excitation, simView_sound_speed,
    simView_decimation] at hout
  constructor
  · rw [hout, List.length_map, List.length_range]
  · intro j hj k hk
    have hlhs : (out.getD j []).getD k 0 = (bufs.getD j []).getD
        (k * s.m_radial_decimation + s.excitation.center_index) 0 := by
      rw [hout, getD_map_range _ _ j [] hj]
      exact assemble_line_getD _ _ _ _ k hdec hk
    have hrhs : s'.host_rf_lines.getD j [] = bufs.getD j [] := by
      rw [hs']
      show (writeLines (preprocess s).scan_seq.lines.length bufs
        (preprocess s).host_rf_lines).getD j [] = bufs.getD j []
      rw [preprocess_scan_seq, preprocess_host_rf_lines]
      exact writeLines_getD _ _ _ j hj (Nat.lt_of_lt_of_le hj hhost)
    rw [hlhs, hrhs]

/-- The fixture scaled to zero time samples: the whole pipeline then
evaluates to empty buffers by pure structural computation, which keeps the
concrete run kernel-checkable (`Rat` arithmetic does not reduce inside
`decide`). -/
def simStateW0 : GpuState :=
  { simStateW with
      num_time_samples := 0
      device_excitation_fft := some []
      host_rf_lines := [[]]
      device_time_proj := [[]] }

/-- Witness for claim C1: a configured one-line state on which the whole
pipeline evaluates concretely. -/
theorem claim_C1_witness :
    0 < simStateW0.m_radial_decimation ∧
    simStateW0.scan_seq.lines.length ≤ simStateW0.host_rf_lines.length ∧
    (([[(0 : Cplx)]] : List (List Cplx)).length = simStateW0.scan_seq.lines.length ∧
      ∀ j < simStateW0.scan_seq.lines.length, ∀ k : ℕ,
        k * simStateW0.m_radial_decimation <
          envW.compute_num_rf_samples simStateW0.param_sound_speed
            simStateW0.scan_seq.line_length
            simStateW0.excitation.sampling_frequency →
        (([[(0 : Cplx)]] : List (List Cplx)).getD j []).getD k 0 =
          ((simulate_lines envW simStateW0).1.host_rf_lines.getD j []).getD
            (k * simStateW0.m_radial_decimation + simStateW0.excitation.center_index) 0) := by
  refine ⟨by decide, by decide, ?_⟩
  exact claim_C1 envW simStateW0 (simulate_lines envW simStateW0).1 [[(0 : Cplx)]]
    (by decide) (by decide) (by decide)

/-- Claim C2: with no fixed and no spline scatterers, a single-scanline
`simulate_lines` call with a configured beam profile succeeds, returns
exactly one line, and every sample of that line is `0 + 0i`: the projection
buffer is zeroed by the memset kernel, no projection kernel runs, and
forward FFT, spectral multiply, inverse FFT and demodulation all map the
all-zero buffer to an all-zero buffer. -/
theorem claim_C2 (env : Env) (s : GpuState)
    (hfix : s.num_fixed_scatterers = 0) (hspl : s.num_spline_scatterers = 0)
    (hone : s.scan_seq.lines.length = 1)
    (hprof : s.cur_beam_profile_type ≠ BeamProfileType.NOT_CONFIGURED) :
    ∃ s' out, simulate_lines env s = (s', .ok out) ∧ out.length = 1 ∧
      ∀ x ∈ out.getD 0 [], x = 0 := by
  have hline := computeLine_zero_scatterers env (simView s)
    (s.scan_seq.lines.getD 0 default) (0 % s.param_num_cuda_streams) hfix hspl
  have hcore : simCore env (simView s) =
      .ok ([fftStages env (simView s) (List.replicate s.num_time_samples 0)],
        [assemble_line (fftStages env (simView s) (List.replicate s.num_time_samples 0))
          (env.compute_num_rf_samples s.param_sound_speed s.scan_seq.line_length
            s.excitation.sampling_frequency)
          s.m_radial_decimation s.excitation.center_index]) := by
    unfold simCore
    rw [simView_scan_seq, hone]
    rw [if_neg (by omega)]
    rw [simView_profile_type, if_neg hprof]
    rw [simView_num_fixed, hfix, round_up_div_zero, if_neg (Nat.not_lt_zero _)]
    rw [simView_num_spline, hspl, round_up_div_zero, if_neg (Nat.not_lt_zero _)]
    rw [show List.range 1 = [0] from rfl, mapM_singleton, simView_num_streams, hline.1]
    rfl
  have h2 : (simulate_lines env s).2 =
      .ok [assemble_line (fftStages env (simView s) (List.replicate s.num_time_samples 0))
        (env.compute_num_rf_samples s.param_sound_speed s.scan_seq.line_length
          s.excitation.sampling_frequency)
        s.m_radial_decimation s.excitation.center_index] := by
    unfold simulate_lines
    dsimp only
    rw [simView_preprocess, hcore]
  refine ⟨(simulate_lines env s).1, _, Prod.ext rfl h2, rfl, ?_⟩
  intro x hx
  exact assemble_line_all_zero hline.2 _ _ _ x hx

/-- Witness for claim C2 on the configured one-line fixture with no
scatterers. -/
theorem claim_C2_witness :
    simStateW.num_fixed_scatterers = 0 ∧ simStateW.num_spline_scatterers = 0 ∧
    simStateW.scan_seq.lines.length = 1 ∧
    simStateW.cur_beam_profile_type ≠ BeamProfileType.NOT_CONFIGURED ∧
    (∃ s' out, simulate_lines envW simStateW = (s', .ok out) ∧ out.length = 1 ∧
      ∀ x ∈ out.getD 0 [], x = 0) := by
  exact ⟨rfl, rfl, rfl, by decide,
    claim_C2 envW simStateW rfl rfl rfl (by decide)⟩

/-- Claim C8: calling `simulate_lines` twice in succession with unchanged
scatterers, scan sequence, excitation and beam profile yields bit-identical
output: the state mutated by the first call (the device-change latch, the
stream pool, the diagnostic log, the projection and host buffers) is
disjoint from everything the per-call computation reads. -/
theorem claim_C8 (env : Env) (s s' : GpuState) (out : List (List Cplx))
    (h : simulate_lines env s = (s', .ok out)) :
    (simulate_lines env s').2 = .ok out := by
  obtain ⟨bufs, hc, hs'⟩ := simulate_lines_ok_inv h
  have hv : simView s' = simView s := by
    rw [hs']
    exact simView_preprocess s
  unfold simulate_lines
  dsimp only
  rw [simView_preprocess, hv, hc]

/-- Witness for claim C8: the first call on the fixture succeeds and the
second call reproduces its output bit for bit. -/
theorem claim_C8_witness :
    (simulate_lines envW ((simulate_lines envW simStateW0).1)).2 =
      .ok [[(0 : Cplx)]] := by
  exact claim_C8 envW simStateW0 (simulate_lines envW simStateW0).1 [[(0 : Cplx)]]
    (by decide)

end BCSim
